import Mathlib

/-!
Shallow embedding of the BinanceImporter collection core
(`candle_collector_debug.py`) and of the indicator functions
(`technical_indicators.py`), with theorems settling the spec claims.

Conventions of the embedding:
* machine integers (epoch milliseconds, counts) are `Int`/`Nat`;
* decimal prices are `ℚ` (the source stores `Decimal`, exact);
* the MySQL tables touched by the collector are an explicit `DBState`
  record threaded through the functions;
* the upstream HTTP fetch and a possible bulk-insert failure are
  parameters of `collect_single_symbol` (`fetch`, `sinkFail`), since the
  source reaches them through the network / the DB driver;
* Python truthiness on integers (`if last_time:`, `x or 0`) is modelled
  explicitly (`pyOrInt`, the `t ≠ 0` tests below);
* wall-clock reads (`time.time()`, `datetime.utcnow()`) are a single
  `now : Int` parameter (epoch ms), as the spec's "fixed simulated now".
-/

/-- One raw kline row returned by the Binance API, fields by index of
`kline_data` in `parse_kline_data`: `[0]` open time, `[1]`–`[5]` prices and
volume, `[6]` close time, `[7]` quote volume, `[8]` trade count, `[9]`/`[10]`
taker volumes. -/
structure Kline where
  openTime : Int
  openPrice : ℚ
  highPrice : ℚ
  lowPrice : ℚ
  closePrice : ℚ
  volume : ℚ
  closeTime : Int
  quoteAssetVolume : ℚ
  numberOfTrades : Int
  takerBuyBase : ℚ
  takerBuyQuote : ℚ
deriving DecidableEq, Repr

/-- One row of the `candles` table, i.e. the tuple built by
`CandleCollector.parse_kline_data`. -/
structure Candle where
  symbol : String
  intervalType : String
  openTime : Int
  closeTime : Int
  openPrice : ℚ
  highPrice : ℚ
  lowPrice : ℚ
  closePrice : ℚ
  volume : ℚ
  quoteAssetVolume : ℚ
  numberOfTrades : Int
  takerBuyBase : ℚ
  takerBuyQuote : ℚ
deriving DecidableEq, Repr

/-- One row of the `collection_control` table (the per-(symbol, interval)
cursor). `lastCollectedTime` is nullable in the schema. -/
structure ControlRow where
  symbol : String
  intervalType : String
  lastCollectedTime : Option Int
  status : String
  errorCount : Nat
  lastError : Option String
deriving DecidableEq, Repr

/-- One row of the `collection_logs` table as written by
`CandleCollector.log_collection`.  The wall-clock `execution_time` float is
not modelled (real time is outside the embedding). -/
structure LogRow where
  symbol : String
  intervalType : String
  collectionType : String
  startTime : Int
  endTime : Int
  records : Nat
  status : String
  errorMessage : Option String
deriving DecidableEq, Repr

/-- The database state visible to the collector: the three tables it
reads/writes. -/
structure DBState where
  candles : List Candle
  control : List ControlRow
  logs : List LogRow
deriving DecidableEq, Repr

/-- Python `x or d` for an optional integer `x`: `None` and `0` are falsy. -/
def pyOrInt (x : Option Int) (d : Int) : Int :=
  match x with
  | some t => if t = 0 then d else t
  | none => d

/-- `CandleCollector.INTERVAL_MS`: interval identifier to duration in
milliseconds; `none` models a `KeyError` on an unknown key. -/
def INTERVAL_MS : String → Option Int
  | "1m" => some 60000
  | "3m" => some 180000
  | "5m" => some 300000
  | "15m" => some 900000
  | "30m" => some 1800000
  | "1h" => some 3600000
  | "2h" => some 7200000
  | "4h" => some 14400000
  | "6h" => some 21600000
  | "8h" => some 28800000
  | "12h" => some 43200000
  | "1d" => some 86400000
  | "3d" => some 259200000
  | "1w" => some 604800000
  | "1M" => some 2592000000
  | _ => none

/-- `CandleCollector.INTERVALS`: the supported interval identifiers. -/
def INTERVALS : List String :=
  ["1m", "3m", "5m", "15m", "30m", "1h", "2h", "4h", "6h", "8h", "12h",
   "1d", "3d", "1w", "1M"]

/-- `CandleCollector.parse_kline_data`: one API kline to one `candles` row. -/
def parse_kline_data (k : Kline) (symbol interval : String) : Candle :=
  { symbol := symbol
    intervalType := interval
    openTime := k.openTime
    closeTime := k.closeTime
    openPrice := k.openPrice
    highPrice := k.highPrice
    lowPrice := k.lowPrice
    closePrice := k.closePrice
    volume := k.volume
    quoteAssetVolume := k.quoteAssetVolume
    numberOfTrades := k.numberOfTrades
    takerBuyBase := k.takerBuyBase
    takerBuyQuote := k.takerBuyQuote }

/-- The uniqueness key of the `candles` table: (symbol, interval_type,
open_time). -/
def candleKey (c0 c : Candle) : Bool :=
  c0.symbol == c.symbol && c0.intervalType == c.intervalType &&
    c0.openTime == c.openTime

/-- `CandleCollector.insert_candles`: `INSERT IGNORE` bulk insert.  Rows whose
key already exists (also earlier in the same batch) are skipped; the returned
count is the number of rows actually inserted (MySQL rowcount of
`INSERT IGNORE`). -/
def insert_candles (db : DBState) : List Candle → DBState × Nat
  | [] => (db, 0)
  | c :: rest =>
    if db.candles.any (fun c0 => candleKey c0 c) then
      insert_candles db rest
    else
      let r := insert_candles { db with candles := db.candles ++ [c] } rest
      (r.1, r.2 + 1)

/-- The uniqueness key of `collection_control`: (symbol, interval_type). -/
def controlKey (sym itv : String) (r : ControlRow) : Bool :=
  r.symbol == sym && r.intervalType == itv

/-- Lookup of the cursor row for a pair (SQL `WHERE symbol = ... AND
interval_type = ...` on the unique key). -/
def findControl (db : DBState) (sym itv : String) : Option ControlRow :=
  db.control.find? (controlKey sym itv)

/-- `CandleCollector.get_last_collected_time`: the cursor's
`last_collected_time`, flattening "no row" and "NULL column" to `none`
exactly as the Python (`result[0][...] if result else None`) does. -/
def get_last_collected_time (db : DBState) (sym itv : String) : Option Int :=
  match findControl db sym itv with
  | some r => r.lastCollectedTime
  | none => none

/-- `CandleCollector.get_last_candle_time`: `MAX(open_time)` over the stored
candles of the pair.  SQL `MAX` over no rows is NULL, and the Python
`if result and result[0]['last_time']` also maps a stored maximum of `0`
to `None` (integer truthiness). -/
def get_last_candle_time (db : DBState) (sym itv : String) : Option Int :=
  match (db.candles.filter
      (fun c => c.symbol == sym && c.intervalType == itv)).map Candle.openTime with
  | [] => none
  | t :: rest =>
    let m := rest.foldl max t
    if m = 0 then none else some m

/-- `CandleCollector.update_collection_control`: `INSERT ... ON DUPLICATE KEY
UPDATE`.  On an existing row, `error_count` becomes `error_count + 1` when the
new status is `'error'` and `0` otherwise; on a fresh row it is `1` or `0`
(the Python computes that value before the query). -/
def update_collection_control (db : DBState) (sym itv : String)
    (lastTime : Int) (status : String) (errorMsg : Option String) : DBState :=
  if db.control.any (controlKey sym itv) then
    { db with control := db.control.map (fun r =>
        if controlKey sym itv r then
          { r with lastCollectedTime := some lastTime
                   status := status
                   errorCount := if status == "error" then r.errorCount + 1 else 0
                   lastError := errorMsg }
        else r) }
  else
    { db with control := db.control ++
        [{ symbol := sym, intervalType := itv, lastCollectedTime := some lastTime,
           status := status, errorCount := if status == "error" then 1 else 0,
           lastError := errorMsg }] }

/-- `CandleCollector.log_collection`: append one `collection_logs` row. -/
def log_collection (db : DBState) (sym itv ctype : String)
    (startT endT : Int) (records : Nat) (status : String)
    (errorMsg : Option String) : DBState :=
  { db with logs := db.logs ++
      [{ symbol := sym, intervalType := itv, collectionType := ctype,
         startTime := startT, endTime := endT, records := records,
         status := status, errorMessage := errorMsg }] }

/-- 30 days in milliseconds, the bootstrap backfill window
(`datetime.utcnow() - timedelta(days=30)`; the source assumes a UTC clock). -/
def days30ms : Int := 2592000000

/-- Window resolution of `collect_single_symbol` (lines 272–278): with no
explicit start, a *truthy* cursor value advances one interval
(`last_time + INTERVAL_MS[interval]`, a `KeyError` on an unknown interval
propagates as an exception), otherwise the start is `now − 30 days`.
Python truthiness makes both a missing/NULL cursor and a stored `0` fall
into the 30-day branch. -/
def resolveStart (db : DBState) (sym itv : String) (now : Int)
    (startTime : Option Int) : Except String Int :=
  match startTime with
  | some s => .ok s
  | none =>
    match get_last_collected_time db sym itv with
    | some t =>
      if t ≠ 0 then
        match INTERVAL_MS itv with
        | some d => .ok (t + d)
        | none => .error ("KeyError: " ++ itv)
      else .ok (now - days30ms)
    | none => .ok (now - days30ms)

/-- The open-candle filter plus `parse_kline_data` (lines 288–293): a kline is
skipped when `kline[6] > int(time.time() * 1000)`, i.e. kept exactly when its
close time is `≤ now`. -/
def filteredBatch (now : Int) (sym itv : String) (klines : List Kline) :
    List Candle :=
  (klines.filter (fun k => decide (k.closeTime ≤ now))).map
    (fun k => parse_kline_data k sym itv)

/-- `max(c[2] for c in candles_data)`: maximum open time of a (non-empty)
batch. -/
def batchMaxOpenTime : List Candle → Int
  | [] => 0
  | c :: cs => cs.foldl (fun m x => max m x.openTime) c.openTime

/-- Result of one `collect_single_symbol` run: the database afterwards and the
returned `(records, status)` pair. -/
structure CollectOutcome where
  db : DBState
  records : Nat
  status : String
deriving DecidableEq, Repr

/-- The `except Exception` block of `collect_single_symbol` (lines 314–330):
log one error event (`start_time or 0`, `end_time or now`), then overwrite the
cursor with `get_last_candle_time(...) or 0` and status `'error'`, and return
`(0, error_msg)` without raising. -/
def collectErrorPath (db : DBState) (sym itv : String)
    (startTime endTime : Option Int) (now : Int) (e : String) :
    CollectOutcome :=
  let db1 := log_collection db sym itv "single" (pyOrInt startTime 0)
      (pyOrInt endTime now) 0 "error" (some e)
  let lastTime := pyOrInt (get_last_candle_time db1 sym itv) 0
  let db2 := update_collection_control db1 sym itv lastTime "error" (some e)
  ⟨db2, 0, e⟩

/-- `CandleCollector.collect_single_symbol`.  `fetch start endTime limit`
stands for `self.api.get_klines(...)` (an exception is `.error`), and
`sinkFail = some e` makes the bulk insert raise `e` (after rollback, so the
`candles` table is untouched), which only happens when a non-empty batch is
actually sent to the database. -/
def collect_single_symbol (db : DBState) (sym itv : String)
    (startTime endTime : Option Int) (limit : Nat) (now : Int)
    (fetch : Int → Option Int → Nat → Except String (List Kline))
    (sinkFail : Option String) : CollectOutcome :=
  match resolveStart db sym itv now startTime with
  | .error e => collectErrorPath db sym itv startTime endTime now e
  | .ok s0 =>
    match fetch s0 endTime limit with
    | .error e => collectErrorPath db sym itv (some s0) endTime now e
    | .ok klines =>
      if klines.isEmpty then ⟨db, 0, "success"⟩
      else
        let batch := filteredBatch now sym itv klines
        if batch.isEmpty then
          -- insert_candles returns 0 without touching the DB; no cursor update
          ⟨log_collection db sym itv "single" s0 (pyOrInt endTime now) 0
              "success" none, 0, "success"⟩
        else
          match sinkFail with
          | some e => collectErrorPath db sym itv (some s0) endTime now e
          | none =>
            let res := insert_candles db batch
            let db2 := update_collection_control res.1 sym itv
                (batchMaxOpenTime batch) "active" none
            let db3 := log_collection db2 sym itv "single" s0
                (pyOrInt endTime now) res.2 "success" none
            ⟨db3, res.2, "success"⟩

/-- The window loop of `CandleCollector.fill_missing_data` (lines 466–477):
starting at `cur`, each iteration requests `[current, min (current + step) fin)`
and sets `current := batch_end`, until `current` reaches `fin` (the source's
`step` is `1000 * INTERVAL_MS[interval]`, always positive; the `0 < step`
guard only rules out the loop that would not terminate in Python either). -/
def gapWindows (step : Nat) (cur fin : Nat) : List (Nat × Nat) :=
  if h : cur < fin ∧ 0 < step then
    (cur, min (cur + step) fin) :: gapWindows step (min (cur + step) fin) fin
  else []
termination_by fin - cur
decreasing_by
  simp only [Nat.min_def]
  split <;> omega

/-- The sequence of `(start_time, end_time)` windows that
`fill_missing_data symbol interval days_back` passes to
`collect_single_symbol` (one call per list entry, in order, each with
`limit = 1000`): `end_time = now`, `start_time = now − days_back` days, batch
width `1000 * INTERVAL_MS[interval]`. -/
def fill_missing_data_windows (now intervalMs daysBack : Nat) :
    List (Nat × Nat) :=
  gapWindows (1000 * intervalMs) (now - daysBack * 86400000) now

/-- `CandleCollector._get_schedule_interval`: polling cadence in minutes for
continuous mode. -/
def get_schedule_interval (interval : String) : Nat :=
  if interval = "1m" ∨ interval = "3m" ∨ interval = "5m" then 5
  else if interval = "15m" ∨ interval = "30m" then 15
  else if interval = "1h" ∨ interval = "2h" then 60
  else 240

/-- `CandleCollector._schedule_collection`: one scheduler tick enqueues one
job per active token onto the task queue, unconditionally. -/
def schedule_collection (tokens : List String) (interval : String)
    (queue : List (String × String)) : List (String × String) :=
  queue ++ tokens.map (fun t => (t, interval))

/-- State of the continuous-mode task queue and workers: the FIFO queue
contents and the jobs dequeued but not yet finished. -/
structure PoolState where
  queue : List (String × String)
  inFlight : List (String × String)
deriving DecidableEq, Repr

/-- Transitions of the scheduler/queue/worker system in continuous mode
(fixed active-token set): a scheduler tick runs `_schedule_collection`; a
worker dequeues the queue head into its in-flight job; a worker finishes its
in-flight job. -/
inductive PoolStep (tokens : List String) (interval : String) :
    PoolState → PoolState → Prop
  | tick (s : PoolState) :
      PoolStep tokens interval s
        ⟨schedule_collection tokens interval s.queue, s.inFlight⟩
  | dequeue (s : PoolState) (j : String × String) (rest : List (String × String))
      (h : s.queue = j :: rest) :
      PoolStep tokens interval s ⟨rest, s.inFlight ++ [j]⟩
  | finish (s : PoolState) (j : String × String)
      (pre post : List (String × String)) (h : s.inFlight = pre ++ j :: post) :
      PoolStep tokens interval s ⟨s.queue, pre ++ post⟩

/-- Reachability from the empty system (continuous collection just started). -/
def PoolReachable (tokens : List String) (interval : String)
    (s : PoolState) : Prop :=
  Relation.ReflTransGen (PoolStep tokens interval) ⟨[], []⟩ s

/-- Number of pending-or-in-flight jobs for one (symbol, interval) pair. -/
def pendingJobs (s : PoolState) (j : String × String) : Nat :=
  (s.queue ++ s.inFlight).countP (fun x => x == j)

/-- Error classes of `requests` raised inside `_make_request`: timeouts,
rate-limit responses, `HTTPError` from `raise_for_status` (4xx and 5xx) and
JSON decode failures.  All of these derive from
`requests.exceptions.RequestException` (decode errors since requests 2.27),
which is the single class the `except` clause catches. -/
inductive ApiError where
  | timeout
  | rateLimited
  | clientError (code : Nat)
  | serverError (code : Nat)
  | decodeError
deriving DecidableEq, Repr

/-- The retry loop body of `BinanceAPI._make_request` from a given attempt
index: `responses a` is the outcome of attempt `a` (0-based).  Returns the
overall outcome (`none` models Python's implicit `return None` when
`max_retries = 0`) together with the list of back-off delays slept, in order
(`retry_delay * (attempt + 1)` before each retry). -/
def makeRequestFrom (maxRetries retryDelay : Nat)
    (responses : Nat → Except ApiError α) (attempt : Nat) :
    Option (Except ApiError α) × List Nat :=
  if attempt < maxRetries then
    match responses attempt with
    | .ok r => (some (.ok r), [])
    | .error e =>
      if attempt < maxRetries - 1 then
        let r := makeRequestFrom maxRetries retryDelay responses (attempt + 1)
        (r.1, retryDelay * (attempt + 1) :: r.2)
      else (some (.error e), [])
  else (none, [])
termination_by maxRetries - attempt
decreasing_by omega

/-- `BinanceAPI._make_request`: `for attempt in range(max_retries)` starting
at attempt 0. -/
def make_request (maxRetries retryDelay : Nat)
    (responses : Nat → Except ApiError α) :
    Option (Except ApiError α) × List Nat :=
  makeRequestFrom maxRetries retryDelay responses 0

/-- Python `max(xs)` on a non-empty list (`listMax [] = 0` is never reached by
the callers, which pass slices of length `k_period > 0`). -/
def listMax : List ℚ → ℚ
  | [] => 0
  | x :: xs => xs.foldl max x

/-- Python `min(xs)` on a non-empty list. -/
def listMin : List ℚ → ℚ
  | [] => 0
  | x :: xs => xs.foldl min x

/-- `TechnicalIndicators.sma`: simple moving average.  Entry `i` averages the
slice `prices[i-period+1 : i+1]`.  (Rational division by zero is `0` in Lean;
the source raises on `period = 0`, so theorems assume `0 < period`.) -/
def sma (prices : List ℚ) (period : Nat) : List (Option ℚ) :=
  if prices.length < period then List.replicate prices.length none
  else (List.range prices.length).map (fun i =>
    if i < period - 1 then none
    else some (((prices.drop (i + 1 - period)).take period).sum / period))

/-- The EMA recurrence `ema[i] = alpha * price[i] + (1 - alpha) * ema[i-1]`
over the remaining prices, given the previous EMA value. -/
def emaRun (alpha : ℚ) : ℚ → List ℚ → List ℚ
  | _, [] => []
  | prev, p :: ps =>
    let v := alpha * p + (1 - alpha) * prev
    v :: emaRun alpha v ps

/-- `TechnicalIndicators.ema`: exponential moving average; the first value at
index `period - 1` is the SMA of the first `period` prices. -/
def ema (prices : List ℚ) (period : Nat) : List (Option ℚ) :=
  if prices.length < period then List.replicate prices.length none
  else
    let alpha : ℚ := 2 / (period + 1)
    let seed : ℚ := (prices.take period).sum / period
    List.replicate (period - 1) none ++
      some seed :: (emaRun alpha seed (prices.drop period)).map some

/-- The Wilder smoothing loop of `TechnicalIndicators.rsi` over the remaining
(gain, loss) pairs, given the running averages. -/
def rsiRun (period : ℚ) : ℚ → ℚ → List (ℚ × ℚ) → List ℚ
  | _, _, [] => []
  | avgGain, avgLoss, (g, l) :: rest =>
    let ag := (avgGain * (period - 1) + g) / period
    let al := (avgLoss * (period - 1) + l) / period
    (if al = 0 then 100 else 100 - 100 / (1 + ag / al)) :: rsiRun period ag al rest

/-- `TechnicalIndicators.rsi`: relative strength index over `period`. -/
def rsi (prices : List ℚ) (period : Nat) : List (Option ℚ) :=
  if prices.length < period + 1 then List.replicate prices.length none
  else
    let deltas := List.zipWith (fun a b => a - b) (prices.drop 1) prices
    let gains := deltas.map (fun d => max d 0)
    let losses := deltas.map (fun d => |min d 0|)
    let avgGain := (gains.take period).sum / (period : ℚ)
    let avgLoss := (losses.take period).sum / (period : ℚ)
    let first : ℚ :=
      if avgLoss = 0 then 100 else 100 - 100 / (1 + avgGain / avgLoss)
    List.replicate period none ++
      some first :: (rsiRun period avgGain avgLoss
        (List.zip (gains.drop period) (losses.drop period))).map some

/-- Count of `None` entries, as `len([x for x in xs if x is None])`. -/
def noneCount (l : List (Option ℚ)) : Nat :=
  (l.filter (fun x => x.isNone)).length

/-- The non-`None` entries, as `[x for x in xs if x is not None]`. -/
def someValues (l : List (Option ℚ)) : List ℚ :=
  l.filterMap id

/-- The per-index combination used by the MACD-line and histogram loops:
`None` if either operand is `None`, else the difference. -/
def optSub : Option ℚ → Option ℚ → Option ℚ
  | some x, some y => some (x - y)
  | _, _ => none

/-- `TechnicalIndicators.macd`: MACD line, signal line (EMA of the non-`None`
MACD values, re-aligned by prepending the counted `None`s) and histogram. -/
def macd (prices : List ℚ) (fast slow signalPeriod : Nat) :
    List (Option ℚ) × List (Option ℚ) × List (Option ℚ) :=
  let emaFast := ema prices fast
  let emaSlow := ema prices slow
  let macdLine := List.zipWith optSub emaFast emaSlow
  let signalLine := List.replicate (noneCount macdLine) none ++
    ema (someValues macdLine) signalPeriod
  let histogram := List.zipWith optSub macdLine signalLine
  (macdLine, signalLine, histogram)

/-- The %K loop of `TechnicalIndicators.stochastic`: entry `i` is `None`
before `k_period - 1`, else `(close - lowest low) / (highest high - lowest
low) * 100` over the trailing `k_period` slice, with `50` guarding a zero
range. -/
def stochasticK (highs lows closes : List ℚ) (kPeriod : Nat) :
    List (Option ℚ) :=
  (List.range closes.length).map (fun i =>
    if i < kPeriod - 1 then none
    else
      let hh := listMax ((highs.drop (i + 1 - kPeriod)).take kPeriod)
      let ll := listMin ((lows.drop (i + 1 - kPeriod)).take kPeriod)
      if hh = ll then some 50
      else some ((closes.getD i 0 - ll) / (hh - ll) * 100))

/-- `TechnicalIndicators.stochastic`: %K and %D.  `none` models the
`ValueError` raised when the three input lists differ in length; %D is the
SMA of the non-`None` %K values, re-aligned by prepending the counted
`None`s. -/
def stochastic (highs lows closes : List ℚ) (kPeriod dPeriod : Nat) :
    Option (List (Option ℚ) × List (Option ℚ)) :=
  if highs.length = lows.length ∧ lows.length = closes.length then
    let kValues := stochasticK highs lows closes kPeriod
    let dValues := List.replicate (noneCount kValues) none ++
      sma (someValues kValues) dPeriod
    some (kValues, dValues)
  else none

/-! ## Helper lemmas about the store operations -/

lemma update_collection_control_candles (db : DBState) (sym itv : String)
    (t : Int) (st : String) (em : Option String) :
    (update_collection_control db sym itv t st em).candles = db.candles := by
  unfold update_collection_control
  split <;> rfl

lemma update_collection_control_logs (db : DBState) (sym itv : String)
    (t : Int) (st : String) (em : Option String) :
    (update_collection_control db sym itv t st em).logs = db.logs := by
  unfold update_collection_control
  split <;> rfl

lemma collectErrorPath_candles (db : DBState) (sym itv : String)
    (st et : Option Int) (now : Int) (e : String) :
    (collectErrorPath db sym itv st et now e).db.candles = db.candles := by
  show (update_collection_control (log_collection db _ _ _ _ _ _ _ _) _ _ _ _ _).candles
      = db.candles
  rw [update_collection_control_candles]
  rfl

lemma insert_candles_control (batch : List Candle) :
    ∀ db : DBState, ((insert_candles db batch).1).control = db.control := by
  induction batch with
  | nil => intro db; rfl
  | cons c rest ih =>
    intro db
    simp only [insert_candles]
    split
    · exact ih db
    · exact ih _

lemma insert_candles_logs (batch : List Candle) :
    ∀ db : DBState, ((insert_candles db batch).1).logs = db.logs := by
  induction batch with
  | nil => intro db; rfl
  | cons c rest ih =>
    intro db
    simp only [insert_candles]
    split
    · exact ih db
    · exact ih _

lemma insert_candles_mem (batch : List Candle) :
    ∀ (db : DBState) (c : Candle),
      c ∈ ((insert_candles db batch).1).candles → c ∈ db.candles ∨ c ∈ batch := by
  induction batch with
  | nil => intro db c h; exact Or.inl h
  | cons b rest ih =>
    intro db c h
    simp only [insert_candles] at h
    split at h
    · rcases ih db c h with h' | h'
      · exact Or.inl h'
      · exact Or.inr (List.mem_cons_of_mem _ h')
    · rcases ih _ c h with h' | h'
      · rcases List.mem_append.mp h' with h'' | h''
        · exact Or.inl h''
        · rcases List.mem_singleton.mp h'' with rfl
          exact Or.inr (List.mem_cons_self _ _)
      · exact Or.inr (List.mem_cons_of_mem _ h')

lemma filteredBatch_closeTime (now : Int) (sym itv : String) (ks : List Kline)
    (c : Candle) (hc : c ∈ filteredBatch now sym itv ks) : c.closeTime ≤ now := by
  unfold filteredBatch at hc
  rcases List.mem_map.mp hc with ⟨k, hk, rfl⟩
  have hkf := (List.mem_filter.mp hk).2
  exact of_decide_eq_true hkf

/-! ## Claim C1 -/

/-- The empty database (fresh install). -/
def dbEmpty : DBState := ⟨[], [], []⟩

/-- A kline whose close time equals the wall-clock `now = 1000` used in the
counterexample: the in-progress candle boundary case. -/
def kC1 : Kline := ⟨40, 1, 1, 1, 1, 1, 1000, 1, 1, 1, 1⟩

/-- Claim C1 is false as stated: at wall-clock `now = 1000`, a fetched kline
with `close_time = 1000 ≥ now` survives the open-candle filter (the code skips
only rows with `close_time > now`) and is persisted into the previously empty
store. -/
theorem c1_counterexample :
    (collect_single_symbol dbEmpty "BTCUSDT" "1h" (some 0) none 1000 1000
        (fun _ _ _ => .ok [kC1]) none).db.candles.any
      (fun c => decide (1000 ≤ c.closeTime)) = true := by decide

/-- Claim C1 (amended: strict comparison): in any `collect_single_symbol` run
at fixed wall-clock `now`, every kline row whose close time is *strictly
greater* than `now` is dropped before persistence; hence every candle in the
store afterwards was either already there or has `close_time ≤ now`. -/
theorem c1_open_candle_exclusion (db : DBState) (sym itv : String)
    (startTime endTime : Option Int) (limit : Nat) (now : Int)
    (fetch : Int → Option Int → Nat → Except String (List Kline))
    (sinkFail : Option String) (c : Candle)
    (hc : c ∈ (collect_single_symbol db sym itv startTime endTime limit now
        fetch sinkFail).db.candles) :
    c ∈ db.candles ∨ c.closeTime ≤ now := by
  unfold collect_single_symbol at hc
  cases hres : resolveStart db sym itv now startTime with
  | error e =>
    rw [hres] at hc
    rw [collectErrorPath_candles] at hc
    exact Or.inl hc
  | ok s0 =>
    rw [hres] at hc
    dsimp only at hc
    cases hf : fetch s0 endTime limit with
    | error e =>
      rw [hf] at hc
      rw [collectErrorPath_candles] at hc
      exact Or.inl hc
    | ok klines =>
      rw [hf] at hc
      dsimp only at hc
      by_cases hk : klines.isEmpty = true
      · rw [if_pos hk] at hc
        exact Or.inl hc
      · rw [if_neg hk] at hc
        by_cases hb : (filteredBatch now sym itv klines).isEmpty = true
        · rw [if_pos hb] at hc
          exact Or.inl hc
        · rw [if_neg hb] at hc
          cases hs : sinkFail with
          | some e =>
            rw [hs] at hc
            dsimp only at hc
            rw [collectErrorPath_candles] at hc
            exact Or.inl hc
          | none =>
            rw [hs] at hc
            dsimp only at hc
            rw [show (log_collection (update_collection_control
                (insert_candles db (filteredBatch now sym itv klines)).1 sym itv
                (batchMaxOpenTime (filteredBatch now sym itv klines)) "active"
                none) sym itv "single" s0 (pyOrInt endTime now)
                (insert_candles db (filteredBatch now sym itv klines)).2
                "success" none).candles
              = (update_collection_control
                (insert_candles db (filteredBatch now sym itv klines)).1 sym itv
                (batchMaxOpenTime (filteredBatch now sym itv klines)) "active"
                none).candles from rfl, update_collection_control_candles] at hc
            rcases insert_candles_mem _ db c hc with h' | h'
            · exact Or.inl h'
            · exact Or.inr (filteredBatch_closeTime now sym itv klines c h')

/-- Witness for `c1_open_candle_exclusion` at a concrete input: a closed
kline (`close_time = 999 ≤ now = 1000`) fetched into the empty store. -/
theorem c1_open_candle_exclusion_witness :
    parse_kline_data ⟨40, 1, 1, 1, 1, 1, 999, 1, 1, 1, 1⟩ "BTCUSDT" "1h"
        ∈ dbEmpty.candles ∨
      (parse_kline_data ⟨40, 1, 1, 1, 1, 1, 999, 1, 1, 1, 1⟩ "BTCUSDT" "1h").closeTime
        ≤ 1000 :=
  c1_open_candle_exclusion dbEmpty "BTCUSDT" "1h" (some 0) none 1000 1000
    (fun _ _ _ => .ok [⟨40, 1, 1, 1, 1, 1, 999, 1, 1, 1, 1⟩]) none _ (by decide)

/-! ## Claim C2 -/

lemma find?_map_updIf (p : ControlRow → Bool) (upd : ControlRow → ControlRow)
    (hk : ∀ r, p (upd r) = p r) :
    ∀ l : List ControlRow,
      (l.map (fun r => if p r then upd r else r)).find? p = (l.find? p).map upd := by
  intro l
  induction l with
  | nil => rfl
  | cons r l ih =>
    by_cases hp : p r = true
    · have h1 : p (upd r) = true := by rw [hk]; exact hp
      rw [List.map_cons, if_pos hp, List.find?_cons_of_pos _ h1,
        List.find?_cons_of_pos _ hp]
      rfl
    · rw [List.map_cons, if_neg hp, List.find?_cons_of_neg _ hp,
        List.find?_cons_of_neg _ hp, ih]

lemma find?_append_of_none (p : ControlRow → Bool) :
    ∀ l l' : List ControlRow, l.find? p = none → (l ++ l').find? p = l'.find? p := by
  intro l l' h
  rw [List.find?_eq_none] at h
  induction l with
  | nil => rfl
  | cons r l ih =>
    rw [List.cons_append, List.find?_cons_of_neg _ (h r (List.mem_cons_self r l))]
    exact ih (fun x hx => h x (List.mem_cons_of_mem r hx))

/-- Effect of one `update_collection_control` call on the cursor row of the
pair it targets: the `ON DUPLICATE KEY UPDATE` result on an existing row, a
fresh row otherwise. -/
lemma findControl_update (db : DBState) (sym itv : String) (t : Int)
    (st : String) (em : Option String) :
    findControl (update_collection_control db sym itv t st em) sym itv =
      some (match findControl db sym itv with
        | some r =>
            { r with lastCollectedTime := some t, status := st,
                     errorCount := if st == "error" then r.errorCount + 1 else 0,
                     lastError := em }
        | none =>
            { symbol := sym, intervalType := itv,
              lastCollectedTime := some t, status := st,
              errorCount := if st == "error" then 1 else 0,
              lastError := em }) := by
  unfold findControl update_collection_control
  by_cases ha : db.control.any (controlKey sym itv) = true
  · rw [if_pos ha]
    dsimp only
    rw [find?_map_updIf (controlKey sym itv)
      (fun r => { r with lastCollectedTime := some t, status := st,
                         errorCount := if st == "error" then r.errorCount + 1 else 0,
                         lastError := em }) (fun r => rfl)]
    have hsome : (db.control.find? (controlKey sym itv)).isSome = true := by
      rw [List.find?_isSome]
      simpa using List.any_eq_true.mp ha
    obtain ⟨r, hr⟩ := Option.isSome_iff_exists.mp hsome
    rw [hr]
    rfl
  · rw [if_neg ha]
    dsimp only
    have hnone : db.control.find? (controlKey sym itv) = none := by
      rw [List.find?_eq_none]
      intro x hx hpx
      exact ha (List.any_eq_true.mpr ⟨x, hx, hpx⟩)
    rw [find?_append_of_none _ _ _ hnone, hnone]
    rw [List.find?_cons_of_pos _ (by simp [controlKey])]

lemma pyOrInt_some_zero (t : Int) : pyOrInt (some t) 0 = t := by
  show (if t = 0 then (0 : Int) else t) = t
  by_cases h : t = 0
  · rw [if_pos h, h]
  · rw [if_neg h]

/-- What one failed run leaves behind, per the spec's error-bookkeeping
protocol as the code actually implements it: zero records and the error text
returned, candle rows untouched, exactly one error log row appended, and the
cursor row overwritten with status `'error'`, `last_error` set, the
consecutive error count bumped (1 on a fresh row) and `last_collected_time`
*set to* `MAX(open_time)` of the stored candles of the pair (`0` when there
are none) — not left at its previous value. -/
def errorRunSpec (db : DBState) (sym itv : String) (s0 : Int)
    (endTime : Option Int) (now : Int) (e : String) (r : CollectOutcome) :
    Prop :=
  r.records = 0 ∧ r.status = e ∧ r.db.candles = db.candles ∧
  r.db.logs = db.logs ++
    [{ symbol := sym, intervalType := itv, collectionType := "single",
       startTime := s0, endTime := pyOrInt endTime now, records := 0,
       status := "error", errorMessage := some e }] ∧
  findControl r.db sym itv = some (match findControl db sym itv with
    | some row =>
        { row with
            lastCollectedTime := some (pyOrInt (get_last_candle_time db sym itv) 0),
            status := "error", errorCount := row.errorCount + 1,
            lastError := some e }
    | none =>
        { symbol := sym, intervalType := itv,
          lastCollectedTime := some (pyOrInt (get_last_candle_time db sym itv) 0),
          status := "error", errorCount := 1, lastError := some e })

lemma collectErrorPath_spec (db : DBState) (sym itv : String) (s0 : Int)
    (endTime : Option Int) (now : Int) (e : String) :
    errorRunSpec db sym itv s0 endTime now e
      (collectErrorPath db sym itv (some s0) endTime now e) := by
  unfold errorRunSpec
  refine ⟨rfl, rfl, collectErrorPath_candles _ _ _ _ _ _ _, ?_, ?_⟩
  · show (update_collection_control (log_collection db _ _ _ _ _ _ _ _) _ _ _ _ _).logs = _
    rw [update_collection_control_logs]
    show db.logs ++ _ = _
    rw [pyOrInt_some_zero]
  · show findControl (update_collection_control (log_collection db sym itv "single"
        (pyOrInt (some s0) 0) (pyOrInt endTime now) 0 "error" (some e)) sym itv
        (pyOrInt (get_last_candle_time (log_collection db sym itv "single"
          (pyOrInt (some s0) 0) (pyOrInt endTime now) 0 "error" (some e)) sym itv) 0)
        "error" (some e)) sym itv = _
    rw [findControl_update]
    rfl

/-- A database whose cursor for (B, 1h) stands at 5000 while the `candles`
table is empty — reachable e.g. when the stored candles were pruned, or when
an earlier first-run failure wrote a cursor without candles. -/
def dbC2 : DBState :=
  ⟨[], [{ symbol := "B", intervalType := "1h", lastCollectedTime := some 5000,
          status := "active", errorCount := 0, lastError := none }], []⟩

/-- Claim C2 is false as stated: a failed run does *not* leave
`last_collected_time` unchanged.  Starting from a cursor at 5000 with no
stored candles, a fetch failure rewrites the cursor to
`MAX(open_time) or 0 = 0`. -/
theorem c2_counterexample :
    get_last_collected_time dbC2 "B" "1h" = some 5000 ∧
    get_last_collected_time (collect_single_symbol dbC2 "B" "1h" (some 7) none
        100 99999 (fun _ _ _ => .error "boom") none).db "B" "1h" = some 0 := by
  decide

/-- Claim C2 (amended): on any fetch or persistence failure the run returns
`(0, error_text)` without raising, leaves the candle rows untouched, appends
exactly one error `collection_logs` row carrying the error text, and updates
the cursor to status `'error'` with the consecutive error count incremented
by one (1 on a fresh row) and `last_error` recorded — but
`last_collected_time` is *overwritten* with `MAX(open_time)` of the stored
candles of the pair (`0` when there are none), not left at its pre-run
value. -/
theorem c2_error_bookkeeping (db : DBState) (sym itv : String)
    (startTime endTime : Option Int) (limit : Nat) (now : Int)
    (fetch : Int → Option Int → Nat → Except String (List Kline))
    (sinkFail : Option String) (s0 : Int) (e : String)
    (hres : resolveStart db sym itv now startTime = .ok s0)
    (hfail : fetch s0 endTime limit = .error e ∨
      (∃ ks, fetch s0 endTime limit = .ok ks ∧ ks.isEmpty = false ∧
        (filteredBatch now sym itv ks).isEmpty = false ∧ sinkFail = some e)) :
    errorRunSpec db sym itv s0 endTime now e
      (collect_single_symbol db sym itv startTime endTime limit now fetch
        sinkFail) := by
  have hco : collect_single_symbol db sym itv startTime endTime limit now fetch
      sinkFail = collectErrorPath db sym itv (some s0) endTime now e := by
    unfold collect_single_symbol
    rw [hres]
    dsimp only
    rcases hfail with hf | ⟨ks, hf, hke, hbe, hsf⟩
    · rw [hf]
    · rw [hf]
      dsimp only
      rw [if_neg (by rw [hke]; exact Bool.false_ne_true),
        if_neg (by rw [hbe]; exact Bool.false_ne_true), hsf]
  rw [hco]
  exact collectErrorPath_spec db sym itv s0 endTime now e

/-- Witness for `c2_error_bookkeeping`: a concrete fetch failure against
`dbC2`. -/
theorem c2_error_bookkeeping_witness :
    errorRunSpec dbC2 "B" "1h" 7 none 99999 "boom"
      (collect_single_symbol dbC2 "B" "1h" (some 7) none 100 99999
        (fun _ _ _ => .error "boom") none) :=
  c2_error_bookkeeping dbC2 "B" "1h" (some 7) none 100 99999
    (fun _ _ _ => .error "boom") none 7 "boom" rfl (Or.inl rfl)

/-! ## Claim C3 -/

/-- A database whose cursor for (B, 1h) exists and stores
`last_collected_time = 0` — reachable, e.g. via the error path of
`collect_single_symbol` when the `candles` table is empty
(see `c2_counterexample`). -/
def dbC3 : DBState :=
  ⟨[], [{ symbol := "B", intervalType := "1h", lastCollectedTime := some 0,
          status := "error", errorCount := 1, lastError := some "boom" }], []⟩

/-- Claim C3 is false as stated: a cursor row with `last_collected_time = 0`
exists, yet the resolved fetch start is `now − 30 days`
(`10000000000 − 2592000000 = 7408000000`), not
`last_collected_time + interval_duration_ms = 3600000` — Python's
`if last_time:` treats the stored `0` as absent. -/
theorem c3_counterexample :
    get_last_collected_time dbC3 "B" "1h" = some 0 ∧
    resolveStart dbC3 "B" "1h" 10000000000 none = .ok 7408000000 ∧
    (0 : Int) + 3600000 ≠ 7408000000 :=
  ⟨by decide, by rfl, by decide⟩

/-- Claim C3 (amended): with no explicit start, the requested fetch start is
`last_collected_time + interval_duration_ms` when the cursor row exists and
holds a *non-zero, non-NULL* `last_collected_time`, and `now − 30 days` when
the cursor is absent, NULL, or zero. -/
theorem c3_window_resolution (db : DBState) (sym itv : String) (now : Int) :
    (∀ t d : Int, get_last_collected_time db sym itv = some t → t ≠ 0 →
      INTERVAL_MS itv = some d →
      resolveStart db sym itv now none = .ok (t + d)) ∧
    (get_last_collected_time db sym itv = none →
      resolveStart db sym itv now none = .ok (now - days30ms)) ∧
    (get_last_collected_time db sym itv = some 0 →
      resolveStart db sym itv now none = .ok (now - days30ms)) := by
  refine ⟨?_, ?_, ?_⟩
  · intro t d ht htz hd
    unfold resolveStart
    rw [ht]
    dsimp only
    rw [if_pos htz, hd]
  · intro ht
    unfold resolveStart
    rw [ht]
  · intro ht
    unfold resolveStart
    rw [ht]
    dsimp only
    rw [if_neg (by omega : ¬(0 : Int) ≠ 0)]

/-- Witness for `c3_window_resolution`: the non-zero-cursor branch at the
cursor 5000 of `dbC2`, and the absent-cursor branch on the empty store. -/
theorem c3_window_resolution_witness :
    resolveStart dbC2 "B" "1h" 10000000000 none = .ok (5000 + 3600000) ∧
    resolveStart dbEmpty "B" "1h" 10000000000 none =
      .ok (10000000000 - days30ms) :=
  ⟨(c3_window_resolution dbC2 "B" "1h" 10000000000).1 5000 3600000 (by decide)
      (by decide) (by decide),
    (c3_window_resolution dbEmpty "B" "1h" 10000000000).2.1 (by decide)⟩

/-! ## Claims C4 and C9 -/

lemma collect_success_eq (db : DBState) (sym itv : String)
    (startTime endTime : Option Int) (limit : Nat) (now : Int)
    (fetch : Int → Option Int → Nat → Except String (List Kline))
    (s0 : Int) (ks : List Kline)
    (hres : resolveStart db sym itv now startTime = .ok s0)
    (hf : fetch s0 endTime limit = .ok ks) (hke : ks.isEmpty = false)
    (hbe : (filteredBatch now sym itv ks).isEmpty = false) :
    collect_single_symbol db sym itv startTime endTime limit now fetch none =
      ⟨log_collection (update_collection_control
          (insert_candles db (filteredBatch now sym itv ks)).1 sym itv
          (batchMaxOpenTime (filteredBatch now sym itv ks)) "active" none)
          sym itv "single" s0 (pyOrInt endTime now)
          (insert_candles db (filteredBatch now sym itv ks)).2 "success" none,
        (insert_candles db (filteredBatch now sym itv ks)).2, "success"⟩ := by
  unfold collect_single_symbol
  rw [hres]
  dsimp only
  rw [hf]
  dsimp only
  rw [if_neg (by rw [hke]; exact Bool.false_ne_true),
    if_neg (by rw [hbe]; exact Bool.false_ne_true)]

lemma findControl_update_nonerror (db : DBState) (sym itv : String) (t : Int)
    (st : String) (em : Option String) (hst : (st == "error") = false) :
    findControl (update_collection_control db sym itv t st em) sym itv =
      some { symbol := sym, intervalType := itv, lastCollectedTime := some t,
             status := st, errorCount := 0, lastError := em } := by
  rw [findControl_update]
  cases hf : findControl db sym itv with
  | none =>
    dsimp only
    rw [if_neg (by rw [hst]; exact Bool.false_ne_true)]
  | some r =>
    have hp : controlKey sym itv r = true := List.find?_some hf
    obtain ⟨rs, ri, rl, rst, rec0, rle⟩ := r
    simp only [controlKey] at hp
    simp only [Bool.and_eq_true] at hp
    obtain ⟨h1, h2⟩ := hp
    have h1' : rs = sym := by simpa using h1
    have h2' : ri = itv := by simpa using h2
    subst h1'
    subst h2'
    dsimp only
    rw [if_neg (by rw [hst]; exact Bool.false_ne_true)]

/-- Claim C4: for a successful run, (a) an empty fetch result returns
`(0, success)` and leaves the whole database — in particular the cursor row —
unchanged; (b) a non-empty persisted batch sets the pair's cursor to the
maximum `open_time` of the batch with status `'active'` and the consecutive
error count reset to 0, and the run reports success. -/
theorem c4_success_cursor (db : DBState) (sym itv : String)
    (startTime endTime : Option Int) (limit : Nat) (now : Int)
    (fetch : Int → Option Int → Nat → Except String (List Kline))
    (sinkFail : Option String) (s0 : Int)
    (hres : resolveStart db sym itv now startTime = .ok s0) :
    (fetch s0 endTime limit = .ok [] →
      collect_single_symbol db sym itv startTime endTime limit now fetch
        sinkFail = ⟨db, 0, "success"⟩) ∧
    (∀ ks, fetch s0 endTime limit = .ok ks → ks.isEmpty = false →
      (filteredBatch now sym itv ks).isEmpty = false → sinkFail = none →
      (collect_single_symbol db sym itv startTime endTime limit now fetch
          sinkFail).status = "success" ∧
      findControl (collect_single_symbol db sym itv startTime endTime limit now
          fetch sinkFail).db sym itv =
        some { symbol := sym, intervalType := itv,
               lastCollectedTime :=
                 some (batchMaxOpenTime (filteredBatch now sym itv ks)),
               status := "active", errorCount := 0, lastError := none }) := by
  constructor
  · intro hf
    unfold collect_single_symbol
    rw [hres]
    dsimp only
    rw [hf]
    dsimp only
    rw [if_pos (show ([] : List Kline).isEmpty = true from rfl)]
  · intro ks hf hke hbe hsf
    subst hsf
    rw [collect_success_eq db sym itv startTime endTime limit now fetch s0 ks
      hres hf hke hbe]
    refine ⟨rfl, ?_⟩
    show findControl (update_collection_control
        (insert_candles db (filteredBatch now sym itv ks)).1 sym itv
        (batchMaxOpenTime (filteredBatch now sym itv ks)) "active" none)
        sym itv = _
    exact findControl_update_nonerror _ sym itv _ "active" none rfl

/-- A closed kline (close time 999 < the witness wall-clock 1000). -/
def kC4 : Kline := ⟨40, 1, 1, 1, 1, 1, 999, 1, 1, 1, 1⟩

/-- Witness for `c4_success_cursor`: both branches at concrete inputs against
the empty store. -/
theorem c4_success_cursor_witness :
    collect_single_symbol dbEmpty "B" "1h" (some 0) none 1000 1000
        (fun _ _ _ => .ok []) none = ⟨dbEmpty, 0, "success"⟩ ∧
    (collect_single_symbol dbEmpty "B" "1h" (some 0) none 1000 1000
        (fun _ _ _ => .ok [kC4]) none).status = "success" ∧
    findControl (collect_single_symbol dbEmpty "B" "1h" (some 0) none 1000 1000
        (fun _ _ _ => .ok [kC4]) none).db "B" "1h" =
      some { symbol := "B", intervalType := "1h",
             lastCollectedTime :=
               some (batchMaxOpenTime (filteredBatch 1000 "B" "1h" [kC4])),
             status := "active", errorCount := 0, lastError := none } := by
  refine ⟨(c4_success_cursor dbEmpty "B" "1h" (some 0) none 1000 1000
      (fun _ _ _ => .ok []) none 0 rfl).1 rfl, ?_, ?_⟩
  · exact ((c4_success_cursor dbEmpty "B" "1h" (some 0) none 1000 1000
      (fun _ _ _ => .ok [kC4]) none 0 rfl).2 [kC4] rfl rfl (by decide) rfl).1
  · exact ((c4_success_cursor dbEmpty "B" "1h" (some 0) none 1000 1000
      (fun _ _ _ => .ok [kC4]) none 0 rfl).2 [kC4] rfl rfl (by decide) rfl).2

/-- Claim C9: on a successful run with a non-empty post-filter batch, the
returned record count and the success log row carry the *newly inserted*
count `(insert_candles db batch).2` (not the batch size), while the cursor is
advanced to the batch's maximum `open_time` unconditionally — also when every
batch row was already stored and the inserted count is therefore 0. -/
theorem c9_duplicate_advance (db : DBState) (sym itv : String)
    (startTime endTime : Option Int) (limit : Nat) (now : Int)
    (fetch : Int → Option Int → Nat → Except String (List Kline))
    (s0 : Int) (ks : List Kline)
    (hres : resolveStart db sym itv now startTime = .ok s0)
    (hf : fetch s0 endTime limit = .ok ks) (hke : ks.isEmpty = false)
    (hbe : (filteredBatch now sym itv ks).isEmpty = false) :
    (collect_single_symbol db sym itv startTime endTime limit now fetch
        none).records = (insert_candles db (filteredBatch now sym itv ks)).2 ∧
    findControl (collect_single_symbol db sym itv startTime endTime limit now
        fetch none).db sym itv =
      some { symbol := sym, intervalType := itv,
             lastCollectedTime :=
               some (batchMaxOpenTime (filteredBatch now sym itv ks)),
             status := "active", errorCount := 0, lastError := none } ∧
    (collect_single_symbol db sym itv startTime endTime limit now fetch
        none).db.logs = db.logs ++
      [{ symbol := sym, intervalType := itv, collectionType := "single",
         startTime := s0, endTime := pyOrInt endTime now,
         records := (insert_candles db (filteredBatch now sym itv ks)).2,
         status := "success", errorMessage := none }] := by
  rw [collect_success_eq db sym itv startTime endTime limit now fetch s0 ks
    hres hf hke hbe]
  refine ⟨rfl, ?_, ?_⟩
  · show findControl (update_collection_control
        (insert_candles db (filteredBatch now sym itv ks)).1 sym itv
        (batchMaxOpenTime (filteredBatch now sym itv ks)) "active" none)
        sym itv = _
    exact findControl_update_nonerror _ sym itv _ "active" none rfl
  · show (update_collection_control
        (insert_candles db (filteredBatch now sym itv ks)).1 sym itv
        (batchMaxOpenTime (filteredBatch now sym itv ks)) "active" none).logs
        ++ _ = _
    rw [update_collection_control_logs, insert_candles_logs]

/-- A store already holding exactly the candle that the witness fetch will
return again: the bulk insert will report 0 new rows. -/
def dbC9 : DBState := ⟨[parse_kline_data kC4 "B" "1h"], [], []⟩

/-- Witness for `c9_duplicate_advance`: re-fetching an already-stored candle
inserts 0 rows, yet the cursor is written to the batch maximum and the
success log row records 0. -/
theorem c9_duplicate_advance_witness :
    (insert_candles dbC9 (filteredBatch 1000 "B" "1h" [kC4])).2 = 0 ∧
    (filteredBatch 1000 "B" "1h" [kC4]).length = 1 ∧
    ((collect_single_symbol dbC9 "B" "1h" (some 0) none 1000 1000
        (fun _ _ _ => .ok [kC4]) none).records =
      (insert_candles dbC9 (filteredBatch 1000 "B" "1h" [kC4])).2 ∧
    findControl (collect_single_symbol dbC9 "B" "1h" (some 0) none 1000 1000
        (fun _ _ _ => .ok [kC4]) none).db "B" "1h" =
      some { symbol := "B", intervalType := "1h",
             lastCollectedTime :=
               some (batchMaxOpenTime (filteredBatch 1000 "B" "1h" [kC4])),
             status := "active", errorCount := 0, lastError := none } ∧
    (collect_single_symbol dbC9 "B" "1h" (some 0) none 1000 1000
        (fun _ _ _ => .ok [kC4]) none).db.logs = dbC9.logs ++
      [{ symbol := "B", intervalType := "1h", collectionType := "single",
         startTime := 0, endTime := pyOrInt none 1000,
         records := (insert_candles dbC9 (filteredBatch 1000 "B" "1h" [kC4])).2,
         status := "success", errorMessage := none }]) :=
  ⟨by decide, by decide,
    c9_duplicate_advance dbC9 "B" "1h" (some 0) none 1000 1000
      (fun _ _ _ => .ok [kC4]) 0 [kC4] rfl rfl rfl (by decide)⟩

/-! ## Claim C5 -/

lemma gapWindows_stop (step cur fin : Nat) (h : ¬cur < fin) :
    gapWindows step cur fin = [] := by
  unfold gapWindows
  exact dif_neg (fun hc => h hc.1)

lemma gapWindows_props (step : Nat) (hs : 0 < step) :
    ∀ (fuel cur fin : Nat), fin - cur ≤ fuel →
      ((gapWindows step cur fin).length = (fin - cur + step - 1) / step) ∧
      (∀ w ∈ gapWindows step cur fin,
          w.1 < w.2 ∧ w.2 = min (w.1 + step) fin ∧ cur ≤ w.1) ∧
      List.Chain' (fun a b : Nat × Nat => b.1 = a.2) (gapWindows step cur fin) ∧
      (∀ t : Nat, (gapWindows step cur fin).countP
          (fun w => decide (w.1 ≤ t ∧ t < w.2)) =
        if cur ≤ t ∧ t < fin then 1 else 0) ∧
      (cur < fin →
        (gapWindows step cur fin).head? = some (cur, min (cur + step) fin)) := by
  intro fuel
  induction fuel with
  | zero =>
    intro cur fin hfu
    have hnlt : ¬cur < fin := by omega
    rw [gapWindows_stop step cur fin hnlt]
    refine ⟨?_, ?_, ?_, ?_, ?_⟩
    · have h0 : fin - cur = 0 := by omega
      rw [h0, List.length_nil]
      exact (Nat.div_eq_of_lt (by omega)).symm
    · intro w hw
      exact absurd hw (List.not_mem_nil w)
    · exact List.chain'_nil
    · intro t
      rw [List.countP_nil, if_neg (by omega)]
    · intro hlt
      exact absurd hlt hnlt
  | succ fuel ih =>
    intro cur fin hfu
    by_cases hlt : cur < fin
    · have hcm : cur < min (cur + step) fin := lt_min (by omega) hlt
      have hmf : min (cur + step) fin ≤ fin := min_le_right _ _
      have heq : gapWindows step cur fin =
          (cur, min (cur + step) fin) ::
            gapWindows step (min (cur + step) fin) fin := by
        conv_lhs => rw [gapWindows.eq_def]
        rw [dif_pos (show cur < fin ∧ 0 < step from ⟨hlt, hs⟩)]
      obtain ⟨ih1, ih2, ih3, ih4, ih5⟩ :=
        ih (min (cur + step) fin) fin (by omega)
      rw [heq]
      refine ⟨?_, ?_, ?_, ?_, ?_⟩
      · rw [List.length_cons, ih1]
        by_cases hcs : cur + step < fin
        · have hm2 : min (cur + step) fin = cur + step := min_eq_left (by omega)
          rw [hm2]
          have e1 : fin - (cur + step) + step - 1 = fin - cur - 1 := by omega
          have e2 : fin - cur + step - 1 = (fin - cur - 1) + step := by omega
          rw [e1, e2, Nat.add_div_right _ hs]
        · have hm2 : min (cur + step) fin = fin := min_eq_right (by omega)
          rw [hm2]
          have e1 : fin - fin + step - 1 = step - 1 := by omega
          rw [e1, Nat.div_eq_of_lt (by omega)]
          exact (Nat.div_eq_of_lt_le (by omega) (by omega)).symm
      · intro w hw
        rcases List.mem_cons.mp hw with hw | hw
        · subst hw
          exact ⟨hcm, rfl, le_refl cur⟩
        · obtain ⟨h1, h2, h3⟩ := ih2 w hw
          exact ⟨h1, h2, le_trans (le_of_lt hcm) h3⟩
      · rw [List.chain'_cons']
        refine ⟨?_, ih3⟩
        intro b hb
        by_cases hmlt : min (cur + step) fin < fin
        · rw [ih5 hmlt] at hb
          rw [Option.mem_some_iff] at hb
          rw [← hb]
        · rw [gapWindows_stop step _ fin hmlt] at hb
          simp at hb
      · intro t
        rw [List.countP_cons, ih4 t]
        simp only [decide_eq_true_eq]
        split_ifs <;> omega
      · intro h
        rfl
    · rw [gapWindows_stop step cur fin hlt]
      refine ⟨?_, ?_, ?_, ?_, ?_⟩
      · have h0 : fin - cur = 0 := by omega
        rw [h0, List.length_nil]
        exact (Nat.div_eq_of_lt (by omega)).symm
      · intro w hw
        exact absurd hw (List.not_mem_nil w)
      · exact List.chain'_nil
      · intro t
        rw [List.countP_nil, if_neg (by omega)]
      · intro h
        exact absurd h hlt

/-- Claim C5: with `start = now − daysBack` days, `end = now` and the
provider batch limit L = 1000, the gap-fill loop issues exactly
`⌈(end − start) / (1000·interval_ms)⌉` windows; every window is non-empty of
width `1000·interval_ms` truncated at `end` (`w.2 = min (w.1 + step) end`, so
only the last can be short); each window starts where the previous one ended
(`Chain'`); every instant of `[start, end)` lies in exactly one window and no
instant outside does (no gap, no overlap); and the first window starts at
`start`. -/
theorem c5_gap_fill_windows (now intervalMs daysBack : Nat)
    (him : 0 < intervalMs) :
    ((fill_missing_data_windows now intervalMs daysBack).length =
      (now - (now - daysBack * 86400000) + 1000 * intervalMs - 1) /
        (1000 * intervalMs)) ∧
    (∀ w ∈ fill_missing_data_windows now intervalMs daysBack,
        w.1 < w.2 ∧ w.2 = min (w.1 + 1000 * intervalMs) now ∧
          now - daysBack * 86400000 ≤ w.1) ∧
    List.Chain' (fun a b : Nat × Nat => b.1 = a.2)
      (fill_missing_data_windows now intervalMs daysBack) ∧
    (∀ t : Nat, (fill_missing_data_windows now intervalMs daysBack).countP
        (fun w => decide (w.1 ≤ t ∧ t < w.2)) =
      if now - daysBack * 86400000 ≤ t ∧ t < now then 1 else 0) ∧
    (now - daysBack * 86400000 < now →
      (fill_missing_data_windows now intervalMs daysBack).head? =
        some (now - daysBack * 86400000,
          min (now - daysBack * 86400000 + 1000 * intervalMs) now)) :=
  gapWindows_props (1000 * intervalMs) (by omega)
    (now - (now - daysBack * 86400000)) (now - daysBack * 86400000) now
    (le_refl _)

/-- Witness for `c5_gap_fill_windows`: one day of 1-minute candles
(86400000 ms) is fetched in 2 windows of 60000000 ms each
(`⌈86400000 / 60000000⌉ = 2`). -/
theorem c5_gap_fill_windows_witness :
    (fill_missing_data_windows 86400000 60000 1).length = 2 := by
  have h := (c5_gap_fill_windows 86400000 60000 1 (by omega)).1
  rw [h]

/-! ## Claim C6 -/

lemma range'_cons (s n : Nat) :
    List.range' s (n + 1) = s :: List.range' (s + 1) n := rfl

lemma makeRequestFrom_ok {α : Type} (m d : Nat)
    (f : Nat → Except ApiError α) :
    ∀ (fuel a k : Nat) (r : α), m - a ≤ fuel → a ≤ k → k < m → f k = .ok r →
      (∀ j, a ≤ j → j < k → ∃ e, f j = .error e) →
      makeRequestFrom m d f a =
        (some (.ok r), (List.range' a (k - a)).map (fun t => d * (t + 1))) := by
  intro fuel
  induction fuel with
  | zero =>
    intro a k r hfu hak hkm hok herr
    omega
  | succ fuel ih =>
    intro a k r hfu hak hkm hok herr
    rw [makeRequestFrom.eq_def, if_pos (by omega : a < m)]
    by_cases heq : a = k
    · subst heq
      rw [hok]
      have hz : a - a = 0 := by omega
      rw [hz]
      rfl
    · obtain ⟨e, he⟩ := herr a (le_refl a) (by omega)
      rw [he]
      dsimp only
      rw [if_pos (by omega : a < m - 1)]
      rw [ih (a + 1) k r (by omega) (by omega) hkm hok
        (fun j h1 h2 => herr j (by omega) h2)]
      have hr : k - a = (k - (a + 1)) + 1 := by omega
      rw [hr, range'_cons, List.map_cons]

lemma makeRequestFrom_err {α : Type} (m d : Nat)
    (f : Nat → Except ApiError α) :
    ∀ (fuel a : Nat), m - a ≤ fuel → a < m →
      (∀ j, a ≤ j → j < m → ∃ e, f j = .error e) →
      ∃ e, f (m - 1) = .error e ∧
        makeRequestFrom m d f a =
          (some (.error e),
            (List.range' a (m - 1 - a)).map (fun t => d * (t + 1))) := by
  intro fuel
  induction fuel with
  | zero =>
    intro a hfu ham herr
    omega
  | succ fuel ih =>
    intro a hfu ham herr
    obtain ⟨e, he⟩ := herr a (le_refl a) ham
    by_cases ha1 : a < m - 1
    · obtain ⟨e', he', heq⟩ := ih (a + 1) (by omega) (by omega)
        (fun j h1 h2 => herr j (by omega) h2)
      refine ⟨e', he', ?_⟩
      rw [makeRequestFrom.eq_def, if_pos (by omega : a < m), he]
      dsimp only
      rw [if_pos ha1, heq]
      have hr : m - 1 - a = (m - 1 - (a + 1)) + 1 := by omega
      rw [hr, range'_cons, List.map_cons]
    · have hma : a = m - 1 := by omega
      refine ⟨e, by rw [← hma]; exact he, ?_⟩
      rw [makeRequestFrom.eq_def, if_pos (by omega : a < m), he]
      dsimp only
      rw [if_neg ha1]
      have hz : m - 1 - a = 0 := by omega
      rw [hz]
      rfl

/-- The probe used in the C6 counterexample: attempt 0 fails with an HTTP
4xx (`raise_for_status` raises `HTTPError`, a `RequestException`), attempt 1
succeeds. -/
def fC6 : Nat → Except ApiError Nat :=
  fun n => if n = 0 then .error (.clientError 404) else .ok 7

/-- Claim C6 is false as stated: a `ClientError` (HTTP 404) outcome *is*
retried — with `max_retries = 3` and `retry_delay = 5` the loop sleeps 5 ms
and returns the success of attempt 1, instead of surfacing the 404
immediately with no retry as the claim requires. -/
theorem c6_counterexample :
    make_request 3 5 fC6 = (some (.ok 7), [5]) ∧
    ¬ make_request 3 5 fC6 =
        (some (.error (.clientError 404)), ([] : List Nat)) := by
  have h1 : make_request 3 5 fC6 =
      (some (.ok 7), (List.range' 0 (1 - 0)).map (fun t => 5 * (t + 1))) :=
    makeRequestFrom_ok 3 5 fC6 3 0 1 7 (by omega) (by omega) (by omega) rfl
      (fun j h1 h2 =>
        ⟨.clientError 404, by
          have hj : j = 0 := by omega
          subst hj
          rfl⟩)
  have h2 : (List.range' 0 (1 - 0)).map (fun t : Nat => 5 * (t + 1)) = [5] := by
    decide
  rw [h1, h2]
  exact ⟨rfl, by simp⟩

/-- Claim C6 (amended): `_make_request` treats *every* `RequestException`
outcome alike — timeouts, rate limits, 5xx, and also 4xx `HTTPError`s and
JSON decode errors: each is retried up to `max_retries` attempts with
linearly increasing sleeps `retry_delay·1, retry_delay·2, …` between
attempts; the first success is returned, and when all attempts fail the last
error is raised to the caller. -/
theorem c6_retry_policy {α : Type} (m d : Nat)
    (f : Nat → Except ApiError α) :
    (∀ (k : Nat) (r : α), k < m → f k = .ok r →
      (∀ j, j < k → ∃ e, f j = .error e) →
      make_request m d f =
        (some (.ok r), (List.range' 0 k).map (fun t => d * (t + 1)))) ∧
    (0 < m → (∀ j, j < m → ∃ e, f j = .error e) →
      ∃ e, f (m - 1) = .error e ∧
        make_request m d f =
          (some (.error e),
            (List.range' 0 (m - 1)).map (fun t => d * (t + 1)))) := by
  constructor
  · intro k r hkm hok herr
    have h := makeRequestFrom_ok m d f m 0 k r (by omega) (by omega) hkm hok
      (fun j h1 h2 => herr j h2)
    rw [Nat.sub_zero] at h
    exact h
  · intro hm herr
    obtain ⟨e, he, heq⟩ := makeRequestFrom_err m d f m 0 (by omega) hm
      (fun j h1 h2 => herr j h2)
    rw [Nat.sub_zero] at heq
    exact ⟨e, he, heq⟩

/-- The witness probes: a timeout on attempt 0 followed by success, and
unbroken server errors. -/
def fC6ok : Nat → Except ApiError Nat :=
  fun n => if n = 0 then .error .timeout else .ok 7

/-- All attempts fail with HTTP 500. -/
def fC6err : Nat → Except ApiError Nat :=
  fun _ => .error (.serverError 500)

/-- Witness for `c6_retry_policy`: both branches at concrete inputs — a
timeout on attempt 0 followed by success, and three straight server
errors. -/
theorem c6_retry_policy_witness :
    make_request 3 5 fC6ok =
      (some (.ok 7), (List.range' 0 1).map (fun t => 5 * (t + 1))) ∧
    ∃ e, fC6err (3 - 1) = .error e ∧
      make_request 3 5 fC6err =
        (some (.error e), (List.range' 0 (3 - 1)).map (fun t => 5 * (t + 1))) :=
  ⟨(c6_retry_policy 3 5 fC6ok).1 1 7 (by omega) rfl
      (fun j hj => ⟨.timeout, by
        have hj0 : j = 0 := by omega
        subst hj0
        rfl⟩),
    (c6_retry_policy 3 5 fC6err).2 (by omega)
      (fun j hj => ⟨.serverError 500, rfl⟩)⟩

/-! ## Claim C7 -/

/-- Claim C7 fails on the code: `_schedule_collection` enqueues one job per
active token unconditionally on every tick, so two scheduler ticks with no
intervening worker progress (one active token BTCUSDT, interval 1h) reach a
state with two pending jobs for the same (symbol, interval) pair — the
"at most one pending-or-in-flight job per pair" invariant required by the
spec is not maintained. -/
theorem c7_double_enqueue :
    ∃ s : PoolState, PoolReachable ["BTCUSDT"] "1h" s ∧
      2 ≤ pendingJobs s ("BTCUSDT", "1h") := by
  refine ⟨⟨[("BTCUSDT", "1h"), ("BTCUSDT", "1h")], []⟩, ?_, by decide⟩
  have h1 : PoolStep ["BTCUSDT"] "1h" ⟨[], []⟩ ⟨[("BTCUSDT", "1h")], []⟩ :=
    PoolStep.tick ⟨[], []⟩
  have h2 : PoolStep ["BTCUSDT"] "1h" ⟨[("BTCUSDT", "1h")], []⟩
      ⟨[("BTCUSDT", "1h"), ("BTCUSDT", "1h")], []⟩ :=
    PoolStep.tick ⟨[("BTCUSDT", "1h")], []⟩
  exact Relation.ReflTransGen.tail (Relation.ReflTransGen.tail
    Relation.ReflTransGen.refl h1) h2

/-! ## Claim C8 -/

/-- Claim C8 is false as stated: the sub-hour intervals 15m and 30m are
polled every 15 minutes, not every 5; moreover for 30m the 15-minute cadence
is *finer* than the interval itself (900000 ms < 1800000 ms). -/
theorem c8_counterexample :
    get_schedule_interval "15m" = 15 ∧ ¬ get_schedule_interval "15m" = 5 ∧
    INTERVAL_MS "15m" = some 900000 ∧ (900000 : Int) < 3600000 ∧
    get_schedule_interval "30m" * 60000 = 900000 ∧
    INTERVAL_MS "30m" = some 1800000 := by decide

/-- Claim C8 (amended): the continuous-mode polling cadence is 5 minutes for
1m/3m/5m, 15 minutes for 15m/30m, 60 minutes for 1h/2h, and 240 minutes for
every larger interval; the cadence can be finer than the interval itself
(e.g. 30m is polled every 15 minutes). -/
theorem c8_schedule_cadence :
    INTERVALS.map get_schedule_interval =
      [5, 5, 5, 15, 15, 60, 60, 240, 240, 240, 240, 240, 240, 240, 240] := by
  decide

/-! ## Claim C10 -/

lemma sma_length (prices : List ℚ) (period : Nat) :
    (sma prices period).length = prices.length := by
  unfold sma
  split
  · simp
  · simp

lemma emaRun_length (alpha : ℚ) :
    ∀ (prev : ℚ) (l : List ℚ), (emaRun alpha prev l).length = l.length := by
  intro prev l
  induction l generalizing prev with
  | nil => rfl
  | cons p ps ih => simp [emaRun, ih]

lemma ema_length (prices : List ℚ) (period : Nat) (hp : 0 < period) :
    (ema prices period).length = prices.length := by
  unfold ema
  by_cases h : prices.length < period
  · rw [if_pos h]
    simp
  · rw [if_neg h]
    simp [emaRun_length]
    omega

lemma rsiRun_length (period : ℚ) :
    ∀ (ag al : ℚ) (l : List (ℚ × ℚ)),
      (rsiRun period ag al l).length = l.length := by
  intro ag al l
  induction l generalizing ag al with
  | nil => rfl
  | cons gl rest ih =>
    obtain ⟨g, l0⟩ := gl
    simp [rsiRun, ih]

lemma rsi_length (prices : List ℚ) (period : Nat) :
    (rsi prices period).length = prices.length := by
  unfold rsi
  by_cases h : prices.length < period + 1
  · rw [if_pos h]
    simp
  · rw [if_neg h]
    simp [rsiRun_length, List.length_zip]
    omega

lemma someValues_noneCount (l : List (Option ℚ)) :
    (someValues l).length + noneCount l = l.length := by
  induction l with
  | nil => rfl
  | cons x xs ih =>
    cases x with
    | none =>
      simp only [someValues, noneCount, List.filterMap_cons, List.filter_cons,
        Option.isNone_none, if_true, List.length_cons, id_eq] at ih ⊢
      omega
    | some v =>
      simp only [someValues, noneCount, List.filterMap_cons, List.filter_cons,
        Option.isNone_some, if_false, Bool.false_eq_true, List.length_cons,
        id_eq] at ih ⊢
      omega

lemma macd_line_length (prices : List ℚ) (fast slow : Nat)
    (hf : 0 < fast) (hsl : 0 < slow) :
    (List.zipWith optSub (ema prices fast) (ema prices slow)).length =
      prices.length := by
  rw [List.length_zipWith, ema_length _ _ hf, ema_length _ _ hsl, min_self]

lemma signal_line_length (ml : List (Option ℚ)) (sg : Nat) (hsg : 0 < sg) :
    (List.replicate (noneCount ml) none ++ ema (someValues ml) sg).length =
      ml.length := by
  rw [List.length_append, List.length_replicate, ema_length _ _ hsg]
  have h := someValues_noneCount ml
  omega

lemma stochasticK_length (highs lows closes : List ℚ) (kp : Nat) :
    (stochasticK highs lows closes kp).length = closes.length := by
  unfold stochasticK
  rw [List.length_map, List.length_range]

lemma replicate_prefix_none (nc : Nat) (rest : List (Option ℚ)) (i : Nat)
    (hi : i < nc) :
    (List.replicate nc (none : Option ℚ) ++ rest).getD i (some 0) = none := by
  rw [List.getD_eq_getElem?_getD, List.getElem?_append_left (by simpa using hi),
    List.getElem?_replicate_of_lt hi]
  rfl

lemma sma_none_insufficient (prices : List ℚ) (p i : Nat)
    (hi : i < prices.length) (hin : i < p - 1 ∨ prices.length < p) :
    (sma prices p).getD i (some 0) = none := by
  unfold sma
  by_cases h : prices.length < p
  · rw [if_pos h, List.getD_eq_getElem?_getD, List.getElem?_replicate_of_lt hi]
    rfl
  · rw [if_neg h]
    have hip : i < p - 1 := by omega
    rw [List.getD_eq_getElem?_getD, List.getElem?_map, List.getElem?_range hi]
    simp only [Option.map_some', Option.getD_some]
    rw [if_pos hip]

lemma rsi_none_insufficient (prices : List ℚ) (p i : Nat)
    (hi : i < prices.length) (hin : i < p ∨ prices.length < p + 1) :
    (rsi prices p).getD i (some 0) = none := by
  unfold rsi
  by_cases h : prices.length < p + 1
  · rw [if_pos h, List.getD_eq_getElem?_getD, List.getElem?_replicate_of_lt hi]
    rfl
  · rw [if_neg h]
    have hip : i < p := by omega
    dsimp only
    exact replicate_prefix_none p _ i hip

lemma stochasticK_none_insufficient (highs lows closes : List ℚ)
    (kp i : Nat) (hip : i < kp - 1) (hi : i < closes.length) :
    (stochasticK highs lows closes kp).getD i (some 0) = none := by
  unfold stochasticK
  rw [List.getD_eq_getElem?_getD, List.getElem?_map, List.getElem?_range hi]
  simp only [Option.map_some', Option.getD_some]
  rw [if_pos hip]

/-- Claim C10: each indicator preserves the input length — `sma`, `rsi`, all
three MACD outputs (including the signal line re-aligned by counting leading
`None`s) and the two stochastic outputs (equal-length inputs, since unequal
lengths raise) — with `None` at every position that lacks sufficient history:
the first `period − 1` (sma), `period` (rsi), `k_period − 1` (%K) positions,
every position when the input is shorter than the lookback, and the counted
`None`-prefix of the re-aligned signal and %D lines.  (Positive periods: the
source raises `ZeroDivisionError` on a zero period.) -/
theorem c10_indicator_shapes (prices highs lows closes : List ℚ)
    (p fast slow sg kp dp : Nat)
    (hp : 0 < p) (hf : 0 < fast) (hsl : 0 < slow) (hsg : 0 < sg)
    (hkp : 0 < kp) (hdp : 0 < dp)
    (hhl : highs.length = lows.length) (hlc : lows.length = closes.length) :
    (sma prices p).length = prices.length ∧
    (rsi prices p).length = prices.length ∧
    (macd prices fast slow sg).1.length = prices.length ∧
    (macd prices fast slow sg).2.1.length = prices.length ∧
    (macd prices fast slow sg).2.2.length = prices.length ∧
    (∃ kd, stochastic highs lows closes kp dp = some kd ∧
      kd.1.length = closes.length ∧ kd.2.length = closes.length) ∧
    (∀ i, i < prices.length → i < p - 1 ∨ prices.length < p →
      (sma prices p).getD i (some 0) = none) ∧
    (∀ i, i < prices.length → i < p ∨ prices.length < p + 1 →
      (rsi prices p).getD i (some 0) = none) ∧
    (∀ i, i < noneCount (macd prices fast slow sg).1 →
      (macd prices fast slow sg).2.1.getD i (some 0) = none) ∧
    (∀ i, i < kp - 1 → i < closes.length →
      (stochasticK highs lows closes kp).getD i (some 0) = none) ∧
    (∀ i, i < noneCount (stochasticK highs lows closes kp) →
      ∀ kd, stochastic highs lows closes kp dp = some kd →
        kd.2.getD i (some 0) = none) := by
  have hml := macd_line_length prices fast slow hf hsl
  refine ⟨sma_length prices p, rsi_length prices p, ?_, ?_, ?_, ?_,
    sma_none_insufficient prices p, rsi_none_insufficient prices p, ?_, ?_, ?_⟩
  · show (List.zipWith optSub (ema prices fast) (ema prices slow)).length = _
    exact hml
  · show (List.replicate (noneCount (List.zipWith optSub (ema prices fast)
        (ema prices slow))) none ++
      ema (someValues (List.zipWith optSub (ema prices fast)
        (ema prices slow))) sg).length = _
    rw [signal_line_length _ sg hsg, hml]
  · show (List.zipWith optSub
        (List.zipWith optSub (ema prices fast) (ema prices slow))
        (List.replicate (noneCount (List.zipWith optSub (ema prices fast)
          (ema prices slow))) none ++
          ema (someValues (List.zipWith optSub (ema prices fast)
            (ema prices slow))) sg)).length = _
    rw [List.length_zipWith, signal_line_length _ sg hsg, hml, min_self]
  · refine ⟨(stochasticK highs lows closes kp,
      List.replicate (noneCount (stochasticK highs lows closes kp)) none ++
        sma (someValues (stochasticK highs lows closes kp)) dp), ?_, ?_, ?_⟩
    · unfold stochastic
      rw [if_pos ⟨hhl, hlc⟩]
    · exact stochasticK_length highs lows closes kp
    · show (List.replicate (noneCount (stochasticK highs lows closes kp)) none
          ++ sma (someValues (stochasticK highs lows closes kp)) dp).length = _
      rw [List.length_append, List.length_replicate, sma_length]
      have h1 := someValues_noneCount (stochasticK highs lows closes kp)
      have h2 := stochasticK_length highs lows closes kp
      omega
  · intro i hi
    show (List.replicate (noneCount (List.zipWith optSub (ema prices fast)
        (ema prices slow))) none ++
      ema (someValues (List.zipWith optSub (ema prices fast)
        (ema prices slow))) sg).getD i (some 0) = none
    exact replicate_prefix_none _ _ i hi
  · exact stochasticK_none_insufficient highs lows closes kp
  · intro i hi kd hkd
    unfold stochastic at hkd
    rw [if_pos ⟨hhl, hlc⟩] at hkd
    dsimp only at hkd
    have hkd' := Option.some.inj hkd
    rw [← hkd']
    exact replicate_prefix_none _ _ i hi

/-- Witness for `c10_indicator_shapes` at concrete inputs: three prices with
the standard small periods. -/
theorem c10_indicator_shapes_witness :
    (sma [1, 2, 3] 2).length = 3 ∧
    (rsi [1, 2, 3] 2).length = 3 ∧
    (macd [1, 2, 3] 1 2 1).1.length = 3 := by
  have h := c10_indicator_shapes [1, 2, 3] [1, 2, 3] [1, 2, 3] [1, 2, 3]
    2 1 2 1 2 1 (by omega) (by omega) (by omega) (by omega) (by omega)
    (by omega) rfl rfl
  exact ⟨h.1, h.2.1, h.2.2.1⟩
